import Mathlib

/-!
Shallow embedding of the Shopify session-token validation and token-exchange
core of this repository:

* `ShopifyAuthService` (`validateSessionToken`, `validateTokenPayload`,
  `extractShopFromPayload`, `sanitizeShop`, `isValidShopDomain`,
  `exchangeSessionToken`, `performTokenExchange`, `storeSession`,
  `invalidateSession`) from the shopify web service,
* `ShopifySessionGuard` (`validateSessionToken`, `validateWithSecret`,
  `validateTokenClaims`, `extractDomainFromUrl`) from the auth service,
* the `ShopifySession` TypeORM entity.

JavaScript strings become Lean `String` (operated on through `List Char`),
JavaScript numbers holding unix timestamps become `Nat`, optional / possibly
`undefined` numeric claims become `Option Nat` (JS truthiness of a number is
`≠ 0`, of a string is `≠ ""`).  Thrown `Error`s become `Except` with a typed
error kind per throw site.  The datastore is a list of entity rows; a TypeORM
`save` on an entity with a primary key is modelled as replace-by-id, and the
transaction in `storeSession` is the single atomic state transformation the
function performs.  The behaviour of the `jsonwebtoken` library underneath
`JwtService.verify` (signature first, then `nbf`, then `exp`, each only when
the claim is present) is embedded as `jwtVerifyHS256` with the signature
outcome abstracted to a boolean.
-/

/-! ## JavaScript string primitives -/

/-- Test `leadsWith pat s` : `s` starts with `pat` (character list version). -/
def leadsWith : List Char → List Char → Bool
  | [], _ => true
  | _ :: _, [] => false
  | p :: ps, c :: cs => p == c && leadsWith ps cs

/-- Test `containsSub pat s` : `pat` occurs as a contiguous substring of `s`
    (JS `String.prototype.includes`). -/
def containsSub (pat : List Char) : List Char → Bool
  | [] => pat.isEmpty
  | c :: cs => leadsWith pat (c :: cs) || containsSub pat cs

/-- JS `s.includes(pat)`. -/
def jsIncludes (s pat : String) : Bool := containsSub pat.data s.data

/-- Remove the first occurrence of `pat` from `s`
    (JS `s.replace(pat, '')` with a string pattern). -/
def removeFirst (pat : List Char) : List Char → List Char
  | [] => []
  | c :: cs => if leadsWith pat (c :: cs) then (c :: cs).drop pat.length
               else c :: removeFirst pat cs

/-- JS `s.replace(pat, '')` for a plain-string pattern. -/
def jsReplaceFirst (s pat : String) : String := String.mk (removeFirst pat.data s.data)

/-- JS `s.split('/')[0]`. -/
def splitHeadSlash (s : String) : String :=
  String.mk (s.data.takeWhile (fun c => c != '/'))

/-- JS `s.split(',')` (auxiliary, accumulator holds the current chunk reversed). -/
def splitOnCommaAux : List Char → List Char → List String
  | [], acc => [String.mk acc.reverse]
  | c :: cs, acc =>
    if c == ',' then String.mk acc.reverse :: splitOnCommaAux cs []
    else splitOnCommaAux cs (c :: acc)

/-- JS `s.split(',')`. -/
def splitOnComma (s : String) : List String := splitOnCommaAux s.data []

/-- JS `s.trim()`. -/
def jsTrim (s : String) : String :=
  String.mk (((s.data.dropWhile Char.isWhitespace).reverse.dropWhile Char.isWhitespace).reverse)

/-- JS `s.toLowerCase()` (ASCII, which is all the code feeds it). -/
def jsToLower (s : String) : String := String.mk (s.data.map Char.toLower)

/-- Test `charsEndWith s suffix` : `s` ends with `suffix`. -/
def charsEndWith (s suffix : List Char) : Bool := leadsWith suffix.reverse s.reverse

/-- JS `s.endsWith(suffix)`. -/
def jsEndsWith (s suffix : String) : Bool := charsEndWith s.data suffix.data

/-- The regex `/^https?:\/\//` applied by `sanitizeShop`: strip a leading
    protocol. -/
def stripProtocol (s : String) : String :=
  if leadsWith "https://".data s.data then String.mk (s.data.drop 8)
  else if leadsWith "http://".data s.data then String.mk (s.data.drop 7)
  else s

/-! ## Data model -/

/-- The decoded session-token payload (`SessionTokenPayload` in
    `types/jwt.types.ts`).  String claims use `""` for an absent value (JS
    falsy), numeric claims use `Option Nat` (`none` for `undefined`). -/
structure SessionTokenPayload where
  iss : String
  dest : String
  aud : String
  sub : String
  exp : Option Nat
  nbf : Option Nat
  iat : Option Nat
  jti : String
  sid : String
deriving DecidableEq, Repr

/-- One typed error kind per throw site of the validation code. -/
inductive ValidationError where
  | SignatureInvalid
  | Expired
  | NotYetValid
  | WrongAudience
  | IssuedTooLongAgo
  | MissingRequiredClaim
  | InvalidShopDomain
  | InvalidIssuerFormat
  | IssuerDestinationMismatch
  | InvalidUrlFormat
  | ShopDomainRequired
  | InvalidShopFormat
  | CannotExtractShop
deriving DecidableEq, Repr

/-- The `ShopifyUser` / `associated_user` snapshot (`ShopifyUser` in
    `types/shopify.types.ts`, the fields the entity's `userInfo` column keeps). -/
structure ShopifyUser where
  id : Nat
  first_name : String
  last_name : String
  email : String
  account_owner : Bool
deriving DecidableEq, Repr

/-- Shape `ShopifyTokenExchangeResponse` from `types/shopify.types.ts`. -/
structure ShopifyTokenExchangeResponse where
  access_token : String
  scope : String
  expires_in : Option Nat
  associated_user : Option ShopifyUser
deriving DecidableEq, Repr

/-- A row of the `shopify_sessions` table (`ShopifySession` entity).
    `accessToken` is `Option` because `storeSession` leaves it unset on the
    online branch; timestamps are milliseconds since epoch. -/
structure SessionRow where
  id : String
  shop : String
  userId : String
  accessToken : Option String
  onlineAccessToken : Option String
  scope : List String
  expiresAt : Option Nat
  userInfo : Option ShopifyUser
  createdAt : Nat
  updatedAt : Nat
  isActive : Bool
deriving DecidableEq, Repr

/-- Requested token type of the exchange. -/
inductive TokenType where
  | online
  | offline
deriving DecidableEq, Repr

/-! ## `ShopifyAuthService.sanitizeShop` and friends -/

/-- The character class `[a-z0-9-]` of `sanitizeShop`'s extraction regex. -/
def isShopNameChar (c : Char) : Bool :=
  ('a' ≤ c && c ≤ 'z') || ('0' ≤ c && c ≤ '9') || c == '-'

/-- Class `[a-zA-Z0-9]`. -/
def isAlnumChar (c : Char) : Bool := c.isAlpha || c.isDigit

/-- Class `[a-zA-Z0-9-]`. -/
def isDomainChar (c : Char) : Bool := isAlnumChar c || c == '-'

/-- One alternation of the domain regexes of `isValidShopDomain`:
    `^[a-zA-Z0-9][a-zA-Z0-9-]*\.SUFFIX$` for one of the given suffixes.
    Because `.` is not in the name class, a successful match forces the name
    to be the maximal `[a-zA-Z0-9-]` prefix. -/
def matchesDomain (s : String) (suffixes : List String) : Bool :=
  let name := s.data.takeWhile isDomainChar
  let rest := s.data.dropWhile isDomainChar
  match name with
  | [] => false
  | c :: _ => isAlnumChar c && suffixes.any (fun suf => rest == '.' :: suf.data)

/-- Model of `ShopifyAuthService.isValidShopDomain`.  `isProd` is
    `process.env.NODE_ENV === 'production'`. -/
def isValidShopDomain (isProd : Bool) (shop : String) : Bool :=
  matchesDomain shop ["myshopify.com"] ||
    (!isProd && matchesDomain shop ["ngrok.io", "localhost", "local"])

/-- Model of `ShopifyAuthService.sanitizeShop`.  The extraction regex
    `^([a-z0-9-]+)(?:\.myshopify\.com|\.ngrok\.io|\.localhost|\.local)?` has a
    greedy class whose capture is exactly the maximal `[a-z0-9-]` prefix of the
    protocol-stripped input (the optional suffix group starts with `.`, which
    is outside the class, so no backtracking into the capture can occur);
    the match fails exactly when that prefix is empty. -/
def sanitizeShop (isProd : Bool) (shop : String) : Except ValidationError String :=
  if shop = "" then .error .ShopDomainRequired
  else
    let cleanShop := jsToLower (jsTrim shop)
    let withoutProtocol := stripProtocol cleanShop
    let shopName := String.mk (withoutProtocol.data.takeWhile isShopNameChar)
    if shopName = "" then .error .InvalidShopFormat
    else if !(shopName.data.all isShopNameChar) then .error .InvalidShopFormat
    else if isProd then .ok (shopName ++ ".myshopify.com")
    else if jsIncludes withoutProtocol ".ngrok.io" || jsIncludes withoutProtocol ".localhost"
            || jsIncludes withoutProtocol ".local" then .ok withoutProtocol
    else .ok (shopName ++ ".myshopify.com")

/-- Model of `ShopifyAuthService.extractShopFromPayload`. -/
def extractShopFromPayload (isProd : Bool) (p : SessionTokenPayload) :
    Except ValidationError String :=
  let shop :=
    if p.iss ≠ "" then
      splitHeadSlash (jsReplaceFirst (jsReplaceFirst p.iss "https://") "/admin")
    else if p.dest ≠ "" then
      splitHeadSlash (jsReplaceFirst p.dest "https://")
    else ""
  if shop = "" then .error .CannotExtractShop
  else sanitizeShop isProd shop

/-! ## Signature verification (the `jsonwebtoken` library under
    `JwtService.verify`) -/

/-- JS truthiness-guarded numeric test: `v && f(v)`. -/
def optTruthy (v : Option Nat) (f : Nat → Bool) : Bool :=
  match v with
  | some n => decide (n ≠ 0) && f n
  | none => false

/-- The `jsonwebtoken` library verify call with secret and algorithms HS256: the
    signature is checked first (its outcome is the abstracted boolean
    `sigOk`), then `nbf` (rejected when `now < nbf`), then `exp` (rejected
    when `now ≥ exp`), each only when the claim is present. -/
def jwtVerifyHS256 (sigOk : Bool) (p : SessionTokenPayload) (now : Nat) :
    Except ValidationError SessionTokenPayload :=
  if !sigOk then .error .SignatureInvalid
  else if (match p.nbf with | some n => decide (now < n) | none => false) then
    .error .NotYetValid
  else if (match p.exp with | some e => decide (now ≥ e) | none => false) then
    .error .Expired
  else .ok p

/-! ## `ShopifyAuthService` validation -/

/-- Model of `ShopifyAuthService.validateTokenPayload` (`SESSION_TOKEN_LIFETIME = 60`,
    tolerance `+ 30`). -/
def validateTokenPayload (isProd : Bool) (p : SessionTokenPayload)
    (expectedClientId : String) (now : Nat) : Except ValidationError Unit :=
  if p.iss = "" ∨ p.dest = "" ∨ p.aud = "" ∨ p.sub = "" then .error .MissingRequiredClaim
  else if p.aud ≠ expectedClientId then .error .WrongAudience
  else if optTruthy p.exp (fun e => decide (e < now)) then .error .Expired
  else if optTruthy p.nbf (fun n => decide (n > now)) then .error .NotYetValid
  else if optTruthy p.iat (fun i => decide (now - i > 60 + 30)) then .error .IssuedTooLongAgo
  else
    match extractShopFromPayload isProd p with
    | .error e => .error e
    | .ok shop =>
      if !isValidShopDomain isProd shop then .error .InvalidShopDomain
      else if !jsIncludes p.iss ".myshopify.com" then .error .InvalidIssuerFormat
      else .ok ()

/-- Model of `ShopifyAuthService.validateSessionToken`: HMAC verification through
    `JwtService.verify`, then `validateTokenPayload`. -/
def validateSessionToken (sigOk : Bool) (p : SessionTokenPayload) (now : Nat)
    (clientId : String) (isProd : Bool) : Except ValidationError SessionTokenPayload :=
  match jwtVerifyHS256 sigOk p now with
  | .error e => .error e
  | .ok q =>
    match validateTokenPayload isProd q clientId now with
    | .error e => .error e
    | .ok _ => .ok q

/-! ## `ShopifySessionGuard` (auth service) -/

/-- The `new URL(url).hostname` builtin as used by the guard, modelled for the
    `http`/`https` URLs this code receives: the hostname is the lowercased run
    after the scheme up to `/`, `:`, `?` or `#`; anything without such a
    scheme or with an empty host is a parse failure (`Invalid URL format`). -/
def extractDomainFromUrl (url : String) : Except ValidationError String :=
  let rest :=
    if leadsWith "https://".data url.data then some (url.data.drop 8)
    else if leadsWith "http://".data url.data then some (url.data.drop 7)
    else none
  match rest with
  | none => .error .InvalidUrlFormat
  | some cs =>
    let host := cs.takeWhile (fun c => c != '/' && c != ':' && c != '?' && c != '#')
    if host.isEmpty then .error .InvalidUrlFormat
    else .ok (String.mk (host.map Char.toLower))

/-- Model of `ShopifySessionGuard.validateTokenClaims`: expiry (`exp <= now`, only a
    present claim can fail the JS comparison), not-before, audience,
    issuer/destination hostname match, shop-domain suffix — in that order. -/
def guardValidateTokenClaims (p : SessionTokenPayload) (now : Nat)
    (clientId : String) : Except ValidationError Unit :=
  if (match p.exp with | some e => decide (e ≤ now) | none => false) then .error .Expired
  else if (match p.nbf with | some n => decide (n > now) | none => false) then
    .error .NotYetValid
  else if p.aud ≠ clientId then .error .WrongAudience
  else
    match extractDomainFromUrl p.iss with
    | .error e => .error e
    | .ok issuerDomain =>
      match extractDomainFromUrl p.dest with
      | .error e => .error e
      | .ok destDomain =>
        if issuerDomain ≠ destDomain then .error .IssuerDestinationMismatch
        else if !jsEndsWith destDomain ".myshopify.com" then .error .InvalidShopDomain
        else .ok ()

/-- Model of `ShopifySessionGuard.validateWithSecret`: HMAC verification through
    `JwtService.verify`, then `validateTokenClaims`. -/
def validateWithSecret (hmacSigOk : Bool) (p : SessionTokenPayload) (now : Nat)
    (clientId : String) : Except ValidationError SessionTokenPayload :=
  match jwtVerifyHS256 hmacSigOk p now with
  | .error e => .error e
  | .ok q =>
    match guardValidateTokenClaims q now clientId with
    | .error e => .error e
    | .ok _ => .ok q

/-- Model of `ShopifySessionGuard.validateSessionToken`: the JWKS strategy first
    (`jwksRes` is its outcome — a success yields the same decoded payload `p`,
    a failure carries an arbitrary error message, network errors included);
    any error in the JWKS attempt or in the subsequent claim validation falls
    back to `validateWithSecret`. -/
def guardValidateSessionToken (jwksRes : Except String Unit) (hmacSigOk : Bool)
    (p : SessionTokenPayload) (now : Nat) (clientId : String) :
    Except ValidationError SessionTokenPayload :=
  match jwksRes with
  | .ok _ =>
    match guardValidateTokenClaims p now clientId with
    | .ok _ => .ok p
    | .error _ => validateWithSecret hmacSigOk p now clientId
  | .error _ => validateWithSecret hmacSigOk p now clientId

/-! ## Session store: `storeSession`, `invalidateSession` -/

/-- TypeORM `manager.save` on an entity with a set primary key: replace the
    row with that id (if any), materialising the saved entity. -/
def saveRow (store : List SessionRow) (row : SessionRow) : List SessionRow :=
  store.filter (fun r => !(r.id == row.id)) ++ [row]

/-- The `manager.update(ShopifySession, { shop, isActive: true },
    { isActive: false, updatedAt: new Date() })` statement shared by
    `storeSession` and `invalidateSession`. -/
def deactivateShop (store : List SessionRow) (shop : String) (nowMs : Nat) :
    List SessionRow :=
  store.map (fun r =>
    if r.shop == shop && r.isActive then { r with isActive := false, updatedAt := nowMs }
    else r)

/-- The entity `manager.create(ShopifySession, {...})` builds in
    `storeSession`, with the token-type dependent fields set afterwards. -/
def buildSession (shop : String) (p : SessionTokenPayload)
    (resp : ShopifyTokenExchangeResponse) (tokenType : TokenType) (nowMs : Nat) :
    SessionRow :=
  let base : SessionRow :=
    { id := if p.sid ≠ "" then p.sid else p.jti, shop := shop, userId := p.sub,
      accessToken := none, onlineAccessToken := none,
      scope := if resp.scope ≠ "" then splitOnComma resp.scope else [],
      expiresAt := none, userInfo := none,
      createdAt := nowMs, updatedAt := nowMs, isActive := true }
  match tokenType with
  | .online =>
    { base with
      onlineAccessToken := some resp.access_token,
      userInfo := resp.associated_user,
      expiresAt :=
        match resp.expires_in with
        | some ei => if ei ≠ 0 then some (nowMs + ei * 1000) else none
        | none => none }
  | .offline => { base with accessToken := some resp.access_token, expiresAt := none }

/-- Model of `ShopifyAuthService.storeSession`, the body of the
    `sessionRepository.manager.transaction` callback: deactivate every active
    row of the shop, then save the new row built from the exchange response.
    The read-modify-write runs atomically; the whole function is the
    transaction.  Returns the new store and the saved row. -/
def storeSession (store : List SessionRow) (shop : String) (p : SessionTokenPayload)
    (resp : ShopifyTokenExchangeResponse) (tokenType : TokenType) (nowMs : Nat) :
    List SessionRow × SessionRow :=
  let session := buildSession shop p resp tokenType nowMs
  (saveRow (deactivateShop store shop nowMs) session, session)

/-- Result of `invalidateSession`: the updated store and the affected-row
    count the method logs.  The method's own return type is `Promise<void>`,
    so nothing of this reaches the caller besides success/failure. -/
structure InvalidateResult where
  store : List SessionRow
  loggedAffected : Nat
deriving DecidableEq, Repr

/-- Model of `ShopifyAuthService.invalidateSession`: sanitize the shop (a sanitize
    failure is re-thrown as `Failed to invalidate session`), then update all
    rows with `shop = sanitizedShop` and `isActive = true` to inactive. -/
def invalidateSession (isProd : Bool) (store : List SessionRow) (shop : String)
    (nowMs : Nat) : Except String InvalidateResult :=
  match sanitizeShop isProd shop with
  | .error _ => .error "Failed to invalidate session"
  | .ok s =>
    let affected := (store.filter (fun r => r.shop == s && r.isActive)).length
    .ok ⟨deactivateShop store s nowMs, affected⟩

/-- The caller-visible outcome of `invalidateSession` (`Promise<void>`). -/
def invalidateSessionReturn (isProd : Bool) (store : List SessionRow) (shop : String)
    (nowMs : Nat) : Except String Unit :=
  (invalidateSession isProd store shop nowMs).map (fun _ => ())

/-! ## `exchangeSessionToken` -/

/-- The upstream token endpoint's reply as `fetch` delivers it: status, raw
    body text, and the body's JSON parse (only consulted on a 2xx). -/
structure HttpResponse where
  status : Nat
  body : String
  json : ShopifyTokenExchangeResponse
deriving DecidableEq, Repr

/-- Predicate `Response.ok` of `fetch`: status in the 2xx range. -/
def respOk (r : HttpResponse) : Bool := 200 ≤ r.status && r.status < 300

/-- Error taxonomy of the exchange path. -/
inductive ExchangeError where
  | InvalidSessionToken (e : ValidationError)
  | ExchangeRejected (status : Nat) (body : String)
deriving DecidableEq, Repr

/-- Model of `ShopifyAuthService.exchangeSessionToken`: validate the session token,
    derive the shop, POST the exchange (`performTokenExchange`, whose reply is
    the `resp` parameter; a non-2xx status throws with the upstream status and
    body before any store access), then `storeSession` inside its transaction.
    Returns the store as left by the call together with the outcome. -/
def exchangeSessionToken (store : List SessionRow) (sigOk : Bool)
    (p : SessionTokenPayload) (now : Nat) (clientId : String) (isProd : Bool)
    (resp : HttpResponse) (tokenType : TokenType) (nowMs : Nat) :
    List SessionRow × Except ExchangeError ShopifyTokenExchangeResponse :=
  match validateSessionToken sigOk p now clientId isProd with
  | .error e => (store, .error (.InvalidSessionToken e))
  | .ok payload =>
    match extractShopFromPayload isProd payload with
    | .error e => (store, .error (.InvalidSessionToken e))
    | .ok shop =>
      if respOk resp then
        ((storeSession store shop payload resp.json tokenType nowMs).1, .ok resp.json)
      else
        (store, .error (.ExchangeRejected resp.status resp.body))

/-! ## Store lemmas -/

/-- After `deactivateShop`, no row of the shop is active. -/
theorem deactivateShop_not_active (store : List SessionRow) (shop : String)
    (nowMs : Nat) :
    ∀ r ∈ deactivateShop store shop nowMs, (r.shop == shop && r.isActive) = false := by
  intro r hr
  simp only [deactivateShop, List.mem_map] at hr
  obtain ⟨r₀, _, rfl⟩ := hr
  by_cases h : (r₀.shop == shop && r₀.isActive) = true
  · simp [h]
  · simp only [h, if_neg, Bool.not_eq_true] at *

/-- The built session row is an active row of the shop. -/
theorem buildSession_shop_active (shop : String) (p : SessionTokenPayload)
    (resp : ShopifyTokenExchangeResponse) (tt : TokenType) (nowMs : Nat) :
    (buildSession shop p resp tt nowMs).shop = shop ∧
      (buildSession shop p resp tt nowMs).isActive = true := by
  cases tt <;> exact ⟨rfl, rfl⟩

/-- Filtering a list that ends in a single satisfying element and otherwise
    contains none. -/
theorem filter_append_single {α : Type} (l : List α) (x : α) (pred : α → Bool)
    (h : ∀ a ∈ l, pred a = false) (hx : pred x = true) :
    (l ++ [x]).filter pred = [x] := by
  rw [List.filter_append]
  have hnil : l.filter pred = [] := by
    rw [List.filter_eq_nil_iff]
    intro a ha
    simp [h a ha]
  simp [hnil, hx]

/-- After `storeSession`, the active rows of the shop are exactly the newly
    saved row. -/
theorem storeSession_active_filter (store : List SessionRow) (shop : String)
    (p : SessionTokenPayload) (resp : ShopifyTokenExchangeResponse)
    (tt : TokenType) (nowMs : Nat) :
    ((storeSession store shop p resp tt nowMs).1.filter
        (fun r => r.shop == shop && r.isActive))
      = [(storeSession store shop p resp tt nowMs).2] := by
  obtain ⟨hs, ha⟩ := buildSession_shop_active shop p resp tt nowMs
  apply filter_append_single
  · intro a hamem
    have hsub : a ∈ deactivateShop store shop nowMs := List.mem_of_mem_filter hamem
    exact deactivateShop_not_active store shop nowMs a hsub
  · simp [hs, ha]

/-! ## Validation lemmas -/

/-- A payload that passes `validateTokenPayload` has an extractable shop. -/
theorem validateTokenPayload_ok_extract (isProd : Bool) (p : SessionTokenPayload)
    (cid : String) (now : Nat) (h : validateTokenPayload isProd p cid now = .ok ()) :
    ∃ shop, extractShopFromPayload isProd p = .ok shop := by
  cases hE : extractShopFromPayload isProd p with
  | ok s => exact ⟨s, rfl⟩
  | error e =>
    exfalso
    unfold validateTokenPayload at h
    rw [hE] at h
    repeat' split at h
    all_goals simp_all

/-- Lemma: `jwtVerifyHS256` can only succeed with the input payload. -/
theorem jwtVerifyHS256_ok (sigOk : Bool) (p : SessionTokenPayload) (now : Nat)
    (r : SessionTokenPayload) (h : jwtVerifyHS256 sigOk p now = .ok r) : r = p := by
  unfold jwtVerifyHS256 at h
  repeat' split at h
  all_goals simp_all

/-- A successful `ShopifyAuthService.validateSessionToken` returns the input
    payload and implies that `validateTokenPayload` passed. -/
theorem validateSessionToken_ok_parts (sigOk : Bool) (p : SessionTokenPayload)
    (now : Nat) (cid : String) (isProd : Bool) (q : SessionTokenPayload)
    (h : validateSessionToken sigOk p now cid isProd = .ok q) :
    q = p ∧ validateTokenPayload isProd p cid now = .ok () := by
  unfold validateSessionToken at h
  split at h
  · exact absurd h (by simp)
  · rename_i r hv
    have hr : r = p := jwtVerifyHS256_ok sigOk p now r hv
    subst hr
    split at h
    · exact absurd h (by simp)
    · rename_i u hp
      simp only [Except.ok.injEq] at h
      exact ⟨h.symm, by cases u; exact hp⟩

/-! ## Concrete sample values used by witnesses and counterexamples -/

/-- A payload every check of both validators accepts at `now = 960`,
    `clientId = "key"`. -/
def samplePayload : SessionTokenPayload :=
  { iss := "https://test-shop.myshopify.com/admin",
    dest := "https://test-shop.myshopify.com",
    aud := "key", sub := "1", exp := some 1000, nbf := some 500, iat := some 950,
    jti := "j1", sid := "s1" }

/-- A pre-existing active session row for the sample shop. -/
def sampleRow : SessionRow :=
  { id := "old", shop := "test-shop.myshopify.com", userId := "9",
    accessToken := some "t0", onlineAccessToken := none, scope := [],
    expiresAt := none, userInfo := none, createdAt := 0, updatedAt := 0,
    isActive := true }

/-- A successful offline exchange response. -/
def sampleResponse : ShopifyTokenExchangeResponse :=
  { access_token := "tok1", scope := "read_products", expires_in := none,
    associated_user := none }

/-! ## Claims -/

/-- C1: for every successful call to `exchangeSessionToken`, the deactivation
    of all previously active rows for the derived shop and the insertion of
    the new active row happen in the one atomic `storeSession` transaction
    (the store left behind is exactly the result of that single state
    transformation), and afterwards exactly one row with `isActive = true`
    exists for that shop — hence at most one per `(shop, tokenType)`. -/
theorem exchange_single_active_session (store : List SessionRow) (sigOk : Bool)
    (p : SessionTokenPayload) (now : Nat) (clientId : String) (isProd : Bool)
    (resp : HttpResponse) (tt : TokenType) (nowMs : Nat) (st' : List SessionRow)
    (res : ShopifyTokenExchangeResponse)
    (h : exchangeSessionToken store sigOk p now clientId isProd resp tt nowMs
          = (st', Except.ok res)) :
    ∃ shop row, extractShopFromPayload isProd p = Except.ok shop ∧
      st' = (storeSession store shop p resp.json tt nowMs).1 ∧
      st'.filter (fun r => r.shop == shop && r.isActive) = [row] ∧
      row.isActive = true ∧ row.shop = shop := by
  unfold exchangeSessionToken at h
  split at h
  · exact absurd h (by simp)
  · rename_i payload hval
    obtain ⟨hqp, hvp⟩ :=
      validateSessionToken_ok_parts sigOk p now clientId isProd payload hval
    subst hqp
    split at h
    · exact absurd h (by simp)
    · rename_i shop hex
      split at h
      · simp only [Prod.mk.injEq] at h
        obtain ⟨hst, _⟩ := h
        obtain ⟨hs, ha⟩ := buildSession_shop_active shop payload resp.json tt nowMs
        refine ⟨shop, (storeSession store shop payload resp.json tt nowMs).2,
          hex, hst.symm, ?_, ha, hs⟩
        rw [← hst]
        exact storeSession_active_filter store shop payload resp.json tt nowMs
      · exact absurd h (by simp)

/-- Witness for C1 at a concrete successful exchange. -/
theorem exchange_single_active_session_witness :
    ∃ st' res,
      exchangeSessionToken [sampleRow] true samplePayload 960 "key" true
          ⟨200, "", sampleResponse⟩ TokenType.offline 5000 = (st', Except.ok res) ∧
      ∃ shop row, extractShopFromPayload true samplePayload = Except.ok shop ∧
        st' = (storeSession [sampleRow] shop samplePayload
                (HttpResponse.mk 200 "" sampleResponse).json TokenType.offline 5000).1 ∧
        st'.filter (fun r => r.shop == shop && r.isActive) = [row] ∧
        row.isActive = true ∧ row.shop = shop := by
  refine ⟨_, _, rfl, ?_⟩
  exact exchange_single_active_session [sampleRow] true samplePayload 960 "key" true
    ⟨200, "", sampleResponse⟩ TokenType.offline 5000 _ _ rfl

/-- C6: a successful offline exchange whose provider response is
    `{access_token: "tok1", scope: "read_products"}` persists a row holding
    the offline access token `"tok1"` (the entity's `accessToken` column),
    `scope = ["read_products"]`, a null `expiresAt`, `isActive = true`; it is
    the only remaining active row for the shop, and every surviving row of
    that shop other than the new one is inactive. -/
theorem offline_exchange_row_fields (store : List SessionRow) (shop : String)
    (p : SessionTokenPayload) (nowMs : Nat) :
    (storeSession store shop p sampleResponse TokenType.offline nowMs).2.accessToken
        = some "tok1" ∧
    (storeSession store shop p sampleResponse TokenType.offline nowMs).2.scope
        = ["read_products"] ∧
    (storeSession store shop p sampleResponse TokenType.offline nowMs).2.expiresAt
        = none ∧
    (storeSession store shop p sampleResponse TokenType.offline nowMs).2.isActive
        = true ∧
    (storeSession store shop p sampleResponse TokenType.offline nowMs).1.filter
        (fun r => r.shop == shop && r.isActive)
      = [(storeSession store shop p sampleResponse TokenType.offline nowMs).2] ∧
    ∀ r ∈ (storeSession store shop p sampleResponse TokenType.offline nowMs).1,
      r.shop = shop →
      r.id ≠ (storeSession store shop p sampleResponse TokenType.offline nowMs).2.id →
      r.isActive = false := by
  refine ⟨rfl, rfl, rfl, rfl,
    storeSession_active_filter store shop p sampleResponse TokenType.offline nowMs, ?_⟩
  intro r hr hshop hid
  simp only [storeSession, saveRow] at hr
  rcases List.mem_append.1 hr with hmem | hmem
  · have hsub := List.mem_of_mem_filter hmem
    have hpred := deactivateShop_not_active store shop nowMs r hsub
    rw [hshop] at hpred
    simpa using hpred
  · exfalso
    apply hid
    have : r = buildSession shop p sampleResponse TokenType.offline nowMs := by
      simpa using hmem
    rw [this]
    rfl

/-- Witness for C6 at a concrete store holding one prior active row. -/
theorem offline_exchange_row_fields_witness :
    (storeSession [sampleRow] "test-shop.myshopify.com" samplePayload sampleResponse
        TokenType.offline 5000).2.accessToken = some "tok1" ∧
    (storeSession [sampleRow] "test-shop.myshopify.com" samplePayload sampleResponse
        TokenType.offline 5000).2.scope = ["read_products"] ∧
    (storeSession [sampleRow] "test-shop.myshopify.com" samplePayload sampleResponse
        TokenType.offline 5000).2.expiresAt = none ∧
    (storeSession [sampleRow] "test-shop.myshopify.com" samplePayload sampleResponse
        TokenType.offline 5000).2.isActive = true ∧
    (storeSession [sampleRow] "test-shop.myshopify.com" samplePayload sampleResponse
        TokenType.offline 5000).1.filter (fun r => r.shop == "test-shop.myshopify.com"
          && r.isActive)
      = [(storeSession [sampleRow] "test-shop.myshopify.com" samplePayload sampleResponse
          TokenType.offline 5000).2] ∧
    ∀ r ∈ (storeSession [sampleRow] "test-shop.myshopify.com" samplePayload sampleResponse
        TokenType.offline 5000).1,
      r.shop = "test-shop.myshopify.com" →
      r.id ≠ (storeSession [sampleRow] "test-shop.myshopify.com" samplePayload
          sampleResponse TokenType.offline 5000).2.id →
      r.isActive = false :=
  offline_exchange_row_fields [sampleRow] "test-shop.myshopify.com" samplePayload 5000

/-- C5: when the token endpoint answers with a non-2xx status, the exchange
    fails with `ExchangeRejected` carrying the upstream status and body, and
    the session store is completely unchanged (no insertion, no
    deactivation). -/
theorem nonOk_exchange_rejected (store : List SessionRow) (sigOk : Bool)
    (p : SessionTokenPayload) (now : Nat) (clientId : String) (isProd : Bool)
    (status : Nat) (body : String) (json : ShopifyTokenExchangeResponse)
    (tt : TokenType) (nowMs : Nat)
    (hval : validateSessionToken sigOk p now clientId isProd = Except.ok p)
    (hstatus : status < 200 ∨ 300 ≤ status) :
    exchangeSessionToken store sigOk p now clientId isProd ⟨status, body, json⟩ tt nowMs
      = (store, Except.error (ExchangeError.ExchangeRejected status body)) := by
  obtain ⟨shop, hex⟩ := validateTokenPayload_ok_extract isProd p clientId now
    (validateSessionToken_ok_parts sigOk p now clientId isProd p hval).2
  have hro : respOk ⟨status, body, json⟩ = false := by
    simp only [respOk, Bool.and_eq_false_iff, decide_eq_false_iff_not, Nat.not_le,
      Nat.not_lt]
    omega
  unfold exchangeSessionToken
  rw [hval]
  dsimp only
  rw [hex]
  dsimp only
  rw [hro]
  rfl

/-- Witness for C5: a valid token, an endpoint answering HTTP 401. -/
theorem nonOk_exchange_rejected_witness :
    exchangeSessionToken [sampleRow] true samplePayload 960 "key" true
        ⟨401, "denied", sampleResponse⟩ TokenType.offline 5000
      = ([sampleRow], Except.error (ExchangeError.ExchangeRejected 401 "denied")) :=
  nonOk_exchange_rejected [sampleRow] true samplePayload 960 "key" true 401 "denied"
    sampleResponse TokenType.offline 5000 rfl (Or.inr (by decide))

/-- A payload whose issuer and destination hostnames differ but whose other
    claims are valid at `now = 960`, `clientId = "key"`. -/
def mismatchPayload : SessionTokenPayload :=
  { iss := "https://aaa.myshopify.com", dest := "https://bbb.myshopify.com",
    aud := "key", sub := "1", exp := some 1000, nbf := some 500, iat := some 950,
    jti := "j", sid := "s" }

/-- C2 counterexample: an *expired* token with mismatching issuer/destination
    hostnames and a verifying (HMAC) signature is rejected as `Expired`, not
    as `IssuerDestinationMismatch` — the expiry check runs first. -/
theorem issuer_dest_mismatch_counterexample :
    extractDomainFromUrl mismatchPayload.iss = Except.ok "aaa.myshopify.com" ∧
    extractDomainFromUrl mismatchPayload.dest = Except.ok "bbb.myshopify.com" ∧
    guardValidateSessionToken (Except.error "jwks fetch failed") true
        { mismatchPayload with exp := some 10, nbf := some 1, iat := some 5 } 100 "key"
      = Except.error ValidationError.Expired ∧
    (Except.error ValidationError.Expired :
        Except ValidationError SessionTokenPayload)
      ≠ Except.error ValidationError.IssuerDestinationMismatch :=
  ⟨rfl, rfl, rfl, by simp⟩

/-- C2 (amended): for every token whose HMAC signature verifies and whose
    expiry, not-before and audience checks pass, a difference between the
    issuer hostname and the destination hostname makes the guard's validation
    fail with `IssuerDestinationMismatch`, whatever the JWKS strategy did. -/
theorem issuer_dest_mismatch_rejected (jwksRes : Except String Unit)
    (p : SessionTokenPayload) (now : Nat) (cid : String) (d1 d2 : String)
    (hexp : ∀ e, p.exp = some e → now < e)
    (hnbf : ∀ n, p.nbf = some n → n ≤ now)
    (haud : p.aud = cid)
    (hiss : extractDomainFromUrl p.iss = Except.ok d1)
    (hdest : extractDomainFromUrl p.dest = Except.ok d2)
    (hne : d1 ≠ d2) :
    guardValidateSessionToken jwksRes true p now cid
      = Except.error ValidationError.IssuerDestinationMismatch := by
  have h1 : (match p.exp with | some e => decide (e ≤ now) | none => false) = false := by
    cases hce : p.exp with
    | none => rfl
    | some e => have := hexp e hce; simp; omega
  have h2 : (match p.nbf with | some n => decide (n > now) | none => false) = false := by
    cases hcn : p.nbf with
    | none => rfl
    | some n => have := hnbf n hcn; simp; omega
  have h3 : (match p.nbf with | some n => decide (now < n) | none => false) = false := by
    cases hcn : p.nbf with
    | none => rfl
    | some n => have := hnbf n hcn; simp; omega
  have h4 : (match p.exp with | some e => decide (now ≥ e) | none => false) = false := by
    cases hce : p.exp with
    | none => rfl
    | some e => have := hexp e hce; simp; omega
  have hclaims : guardValidateTokenClaims p now cid
      = Except.error ValidationError.IssuerDestinationMismatch := by
    unfold guardValidateTokenClaims
    rw [h1, h2]
    simp only [Bool.false_eq_true, if_false, haud]
    rw [hiss, hdest]
    simp [hne]
  have hjwt : jwtVerifyHS256 true p now = Except.ok p := by
    unfold jwtVerifyHS256
    rw [h3, h4]
    simp
  have hvs : validateWithSecret true p now cid
      = Except.error ValidationError.IssuerDestinationMismatch := by
    unfold validateWithSecret
    rw [hjwt]
    dsimp only
    rw [hclaims]
  cases jwksRes with
  | error m => exact hvs
  | ok u =>
    unfold guardValidateSessionToken
    rw [hclaims]
    exact hvs

/-- Witness for the amended C2 at a concrete otherwise-valid token. -/
theorem issuer_dest_mismatch_rejected_witness :
    guardValidateSessionToken (Except.ok ()) true mismatchPayload 960 "key"
      = Except.error ValidationError.IssuerDestinationMismatch :=
  issuer_dest_mismatch_rejected (Except.ok ()) mismatchPayload 960 "key"
    "aaa.myshopify.com" "bbb.myshopify.com"
    (by intro e he; injection he with h; omega)
    (by intro n hn; injection hn with h; omega)
    rfl rfl rfl (by simp)

/-- C3 counterexample: a token whose `exp` is in the past is *not* reported
    as `Expired` when its signature is invalid (signature error wins), nor
    when its `nbf` is still in the future (the library reports
    `NotBeforeError` first). -/
theorem expired_regardless_counterexample :
    validateSessionToken false
        { samplePayload with exp := some 10, nbf := some 1, iat := some 5 } 100 "key" true
      = Except.error ValidationError.SignatureInvalid ∧
    validateSessionToken true
        { samplePayload with exp := some 10, nbf := some 200, iat := some 5 } 100 "key" true
      = Except.error ValidationError.NotYetValid ∧
    (Except.error ValidationError.SignatureInvalid :
        Except ValidationError SessionTokenPayload) ≠ Except.error ValidationError.Expired ∧
    (Except.error ValidationError.NotYetValid :
        Except ValidationError SessionTokenPayload) ≠ Except.error ValidationError.Expired :=
  ⟨rfl, rfl, by simp, by simp⟩

/-- C3 (amended): for every token whose HMAC signature verifies and whose
    not-before claim (when present) has passed, an `exp` in the past makes
    validation fail with `Expired` regardless of every other claim, in both
    the service's `validateSessionToken` and the guard's
    `validateWithSecret`. -/
theorem expired_token_rejected (p : SessionTokenPayload) (now : Nat) (cid : String)
    (isProd : Bool) (e : Nat)
    (hexp : p.exp = some e) (hlt : e < now)
    (hnbf : ∀ n, p.nbf = some n → n ≤ now) :
    validateSessionToken true p now cid isProd = Except.error ValidationError.Expired ∧
    validateWithSecret true p now cid = Except.error ValidationError.Expired := by
  have h3 : (match p.nbf with | some n => decide (now < n) | none => false) = false := by
    cases hcn : p.nbf with
    | none => rfl
    | some n => have := hnbf n hcn; simp; omega
  have h4 : (match p.exp with | some x => decide (now ≥ x) | none => false) = true := by
    rw [hexp]; simp; omega
  have hjwt : jwtVerifyHS256 true p now = Except.error ValidationError.Expired := by
    unfold jwtVerifyHS256
    rw [h3, h4]
    simp
  constructor
  · unfold validateSessionToken; rw [hjwt]
  · unfold validateWithSecret; rw [hjwt]

/-- Witness for the amended C3 at a concrete expired token. -/
theorem expired_token_rejected_witness :
    validateSessionToken true
        { samplePayload with exp := some 10, nbf := some 1, iat := some 5 } 100 "key" true
      = Except.error ValidationError.Expired ∧
    validateWithSecret true
        { samplePayload with exp := some 10, nbf := some 1, iat := some 5 } 100 "key"
      = Except.error ValidationError.Expired :=
  expired_token_rejected _ 100 "key" true 10 rfl (by omega)
    (by intro n hn; injection hn with h; omega)

/-- C7: a token whose audience claim is present but differs from the expected
    client id is rejected as `WrongAudience` when every other claim is valid,
    in the service's `validateSessionToken` and in the guard (whatever the
    JWKS strategy did). -/
theorem wrong_audience_rejected (p : SessionTokenPayload) (now : Nat) (cid : String)
    (isProd : Bool) (jwksRes : Except String Unit)
    (hiss : p.iss ≠ "") (hdest : p.dest ≠ "") (hsub : p.sub ≠ "")
    (haudp : p.aud ≠ "") (haudne : p.aud ≠ cid)
    (hexp : ∀ e, p.exp = some e → now < e)
    (hnbf : ∀ n, p.nbf = some n → n ≤ now) :
    validateSessionToken true p now cid isProd
      = Except.error ValidationError.WrongAudience ∧
    guardValidateSessionToken jwksRes true p now cid
      = Except.error ValidationError.WrongAudience := by
  have h1 : (match p.exp with | some e => decide (e ≤ now) | none => false) = false := by
    cases hce : p.exp with
    | none => rfl
    | some e => have := hexp e hce; simp; omega
  have h2 : (match p.nbf with | some n => decide (n > now) | none => false) = false := by
    cases hcn : p.nbf with
    | none => rfl
    | some n => have := hnbf n hcn; simp; omega
  have h3 : (match p.nbf with | some n => decide (now < n) | none => false) = false := by
    cases hcn : p.nbf with
    | none => rfl
    | some n => have := hnbf n hcn; simp; omega
  have h4 : (match p.exp with | some e => decide (now ≥ e) | none => false) = false := by
    cases hce : p.exp with
    | none => rfl
    | some e => have := hexp e hce; simp; omega
  have hjwt : jwtVerifyHS256 true p now = Except.ok p := by
    unfold jwtVerifyHS256
    rw [h3, h4]
    simp
  have hsvc : validateTokenPayload isProd p cid now
      = Except.error ValidationError.WrongAudience := by
    unfold validateTokenPayload
    have hm : ¬(p.iss = "" ∨ p.dest = "" ∨ p.aud = "" ∨ p.sub = "") := by
      simp [hiss, hdest, haudp, hsub]
    rw [if_neg hm, if_pos haudne]
  have hgc : guardValidateTokenClaims p now cid
      = Except.error ValidationError.WrongAudience := by
    unfold guardValidateTokenClaims
    rw [h1, h2]
    simp only [Bool.false_eq_true, if_false]
    rw [if_pos haudne]
  have hvs : validateWithSecret true p now cid
      = Except.error ValidationError.WrongAudience := by
    unfold validateWithSecret
    rw [hjwt]
    dsimp only
    rw [hgc]
  constructor
  · unfold validateSessionToken
    rw [hjwt]
    dsimp only
    rw [hsvc]
  · cases jwksRes with
    | error m => exact hvs
    | ok u =>
      unfold guardValidateSessionToken
      rw [hgc]
      exact hvs

/-- Witness for C7 at a concrete otherwise-valid token with `aud = "wrong"`. -/
theorem wrong_audience_rejected_witness :
    validateSessionToken true { samplePayload with aud := "wrong" } 960 "key" true
      = Except.error ValidationError.WrongAudience ∧
    guardValidateSessionToken (Except.error "jwks down") true
        { samplePayload with aud := "wrong" } 960 "key"
      = Except.error ValidationError.WrongAudience :=
  wrong_audience_rejected _ 960 "key" true (Except.error "jwks down")
    (by simp [samplePayload]) (by simp [samplePayload]) (by simp [samplePayload])
    (by simp) (by simp)
    (by intro e he; injection he with h; omega)
    (by intro n hn; injection hn with h; omega)

/-- C9: `ShopifyAuthService.validateSessionToken` accepts a token carrying no
    `exp` claim: with a verifying HMAC signature and valid `iss`, `dest`,
    `aud`, `sub` (and passing `nbf`/`iat` checks, which like the expiry check
    only fire when the claim is present), validation succeeds. -/
theorem no_exp_claim_accepted (p : SessionTokenPayload) (now : Nat) (cid : String)
    (isProd : Bool) (s : String)
    (hexp : p.exp = none)
    (hiss : p.iss ≠ "") (hdest : p.dest ≠ "") (hsub : p.sub ≠ "")
    (haud : p.aud = cid) (hcid : cid ≠ "")
    (hnbf : ∀ n, p.nbf = some n → n ≤ now)
    (hiat : ∀ i, p.iat = some i → now - i ≤ 90)
    (hshop : extractShopFromPayload isProd p = Except.ok s)
    (hdom : isValidShopDomain isProd s = true)
    (hfmt : jsIncludes p.iss ".myshopify.com" = true) :
    validateSessionToken true p now cid isProd = Except.ok p := by
  have haudp : p.aud ≠ "" := haud ▸ hcid
  have h3 : (match p.nbf with | some n => decide (now < n) | none => false) = false := by
    cases hcn : p.nbf with
    | none => rfl
    | some n => have := hnbf n hcn; simp; omega
  have h4 : (match p.exp with | some e => decide (now ≥ e) | none => false) = false := by
    rw [hexp]
  have hjwt : jwtVerifyHS256 true p now = Except.ok p := by
    unfold jwtVerifyHS256
    rw [h3, h4]
    simp
  have hte : optTruthy p.exp (fun e => decide (e < now)) = false := by
    rw [hexp]; rfl
  have htn : optTruthy p.nbf (fun n => decide (n > now)) = false := by
    unfold optTruthy
    cases hcn : p.nbf with
    | none => rfl
    | some n =>
      have := hnbf n hcn
      simp only [Bool.and_eq_false_iff, decide_eq_false_iff_not]
      right
      omega
  have hti : optTruthy p.iat (fun i => decide (now - i > 60 + 30)) = false := by
    unfold optTruthy
    cases hci : p.iat with
    | none => rfl
    | some i =>
      have := hiat i hci
      simp only [Bool.and_eq_false_iff, decide_eq_false_iff_not]
      right
      omega
  have hsvc : validateTokenPayload isProd p cid now = Except.ok () := by
    unfold validateTokenPayload
    have hm : ¬(p.iss = "" ∨ p.dest = "" ∨ p.aud = "" ∨ p.sub = "") := by
      simp [hiss, hdest, haudp, hsub]
    rw [if_neg hm, if_neg (by simp [haud]), hte, htn, hti]
    simp only [Bool.false_eq_true, if_false]
    rw [hshop]
    dsimp only
    rw [hdom, hfmt]
    rfl
  unfold validateSessionToken
  rw [hjwt]
  dsimp only
  rw [hsvc]

/-- Witness for C9: the sample payload with its `exp` claim removed is
    accepted. -/
theorem no_exp_claim_accepted_witness :
    validateSessionToken true { samplePayload with exp := none } 960 "key" true
      = Except.ok { samplePayload with exp := none } :=
  no_exp_claim_accepted { samplePayload with exp := none } 960 "key" true
    "test-shop.myshopify.com" rfl
    (by simp [samplePayload]) (by simp [samplePayload]) (by simp [samplePayload])
    rfl (by simp)
    (by intro n hn; injection hn with h; omega)
    (by intro i hi; injection hi with h; omega)
    rfl rfl rfl

/-- Success test on an `Except` outcome (a strategy "succeeds"). -/
def isOkB {ε α : Type} : Except ε α → Bool
  | .ok _ => true
  | .error _ => false

/-- The guard's HMAC path succeeds exactly when the HMAC verification
    succeeds and the claim validation passes. -/
theorem validateWithSecret_ok_iff (hmacSigOk : Bool) (p : SessionTokenPayload)
    (now : Nat) (cid : String) :
    (∃ q, validateWithSecret hmacSigOk p now cid = Except.ok q) ↔
      (isOkB (jwtVerifyHS256 hmacSigOk p now) = true ∧
        guardValidateTokenClaims p now cid = Except.ok ()) := by
  unfold validateWithSecret
  cases hj : jwtVerifyHS256 hmacSigOk p now with
  | error e =>
    constructor
    · rintro ⟨q, hq⟩
      exact absurd hq (by simp)
    · rintro ⟨hok, -⟩
      exact absurd hok (by simp [isOkB])
  | ok r =>
    have hr : r = p := jwtVerifyHS256_ok hmacSigOk p now r hj
    subst hr
    cases hc : guardValidateTokenClaims r now cid with
    | error e2 => simp [isOkB, hc]
    | ok u => cases u; simp [isOkB, hc]

/-- C4: the guard attempts JWKS verification first and, on *any* error in
    that attempt (network errors included), falls back to the HMAC
    (client-secret) path; the token is accepted iff one of the two
    verification strategies succeeds together with claim validation. -/
theorem jwks_fallback_and_acceptance :
    (∀ (msg : String) (hmacSigOk : Bool) (p : SessionTokenPayload) (now : Nat)
        (cid : String),
      guardValidateSessionToken (Except.error msg) hmacSigOk p now cid
        = validateWithSecret hmacSigOk p now cid) ∧
    (∀ (jwksRes : Except String Unit) (hmacSigOk : Bool) (p : SessionTokenPayload)
        (now : Nat) (cid : String),
      (∃ q, guardValidateSessionToken jwksRes hmacSigOk p now cid = Except.ok q) ↔
        (guardValidateTokenClaims p now cid = Except.ok () ∧
          (jwksRes = Except.ok () ∨ isOkB (jwtVerifyHS256 hmacSigOk p now) = true))) := by
  constructor
  · intro msg hmacSigOk p now cid
    rfl
  · intro jwksRes hmacSigOk p now cid
    cases jwksRes with
    | error m =>
      have hg : guardValidateSessionToken (Except.error m) hmacSigOk p now cid
          = validateWithSecret hmacSigOk p now cid := rfl
      rw [hg, validateWithSecret_ok_iff]
      constructor
      · rintro ⟨hj, hc⟩
        exact ⟨hc, Or.inr hj⟩
      · rintro ⟨hc, hor⟩
        rcases hor with h | h
        · exact absurd h (by simp)
        · exact ⟨h, hc⟩
    | ok u =>
      cases u
      cases hc : guardValidateTokenClaims p now cid with
      | ok v =>
        cases v
        constructor
        · intro _
          exact ⟨rfl, Or.inl rfl⟩
        · intro _
          refine ⟨p, ?_⟩
          unfold guardValidateSessionToken
          rw [hc]
      | error e =>
        have hg : guardValidateSessionToken (Except.ok ()) hmacSigOk p now cid
            = validateWithSecret hmacSigOk p now cid := by
          unfold guardValidateSessionToken
          rw [hc]
        rw [hg]
        constructor
        · intro hex
          obtain ⟨-, hclaims⟩ := (validateWithSecret_ok_iff hmacSigOk p now cid).mp hex
          rw [hc] at hclaims
          exact absurd hclaims (by simp)
        · rintro ⟨hc2, -⟩
          exact absurd hc2 (by simp)

/-- Witness for C4: a JWKS network error falls back to the HMAC path, and a
    valid token is still accepted through it. -/
theorem jwks_fallback_and_acceptance_witness :
    guardValidateSessionToken (Except.error "network timeout") true samplePayload 960 "key"
      = validateWithSecret true samplePayload 960 "key" ∧
    ∃ q, guardValidateSessionToken (Except.error "network timeout") true samplePayload
          960 "key" = Except.ok q :=
  ⟨jwks_fallback_and_acceptance.1 "network timeout" true samplePayload 960 "key",
   (jwks_fallback_and_acceptance.2 (Except.error "network timeout") true samplePayload
       960 "key").mpr ⟨rfl, Or.inr rfl⟩⟩

/-- Deactivating a shop twice changes nothing the second time. -/
theorem deactivateShop_idempotent (store : List SessionRow) (s : String)
    (nowMs nowMs2 : Nat) :
    deactivateShop (deactivateShop store s nowMs) s nowMs2
      = deactivateShop store s nowMs := by
  have hfix : ∀ r ∈ deactivateShop store s nowMs,
      (if r.shop == s && r.isActive then { r with isActive := false, updatedAt := nowMs2 }
       else r) = r := by
    intro r hr
    rw [if_neg]
    simp [deactivateShop_not_active store s nowMs r hr]
  calc deactivateShop (deactivateShop store s nowMs) s nowMs2
      = (deactivateShop store s nowMs).map
          (fun r => if r.shop == s && r.isActive then
            { r with isActive := false, updatedAt := nowMs2 } else r) := rfl
    _ = (deactivateShop store s nowMs).map id := List.map_congr_left hfix
    _ = deactivateShop store s nowMs := List.map_id _

/-- C8 counterexample: `invalidateSession` does not return the count of rows
    affected — its caller-visible return is `void`, identical for a call that
    deactivated two rows and a call that deactivated none (the count is only
    logged). -/
theorem invalidate_returns_count_counterexample :
    (invalidateSession true [sampleRow, { sampleRow with id := "old2" }]
        "test-shop" 7000).map InvalidateResult.loggedAffected = Except.ok 2 ∧
    (invalidateSession true [{ sampleRow with isActive := false }]
        "test-shop" 7000).map InvalidateResult.loggedAffected = Except.ok 0 ∧
    invalidateSessionReturn true [sampleRow, { sampleRow with id := "old2" }]
        "test-shop" 7000
      = invalidateSessionReturn true [{ sampleRow with isActive := false }]
        "test-shop" 7000 :=
  ⟨rfl, rfl, rfl⟩

/-- C8 (amended): `invalidateSession` deactivates every active row of the
    sanitized shop, logs (but does not return — the return is void) the
    count of affected rows, and is idempotent: a second call succeeds and
    affects zero rows. -/
theorem invalidate_deactivates_idempotent (isProd : Bool) (store : List SessionRow)
    (shop : String) (nowMs nowMs2 : Nat) (s : String)
    (hs : sanitizeShop isProd shop = Except.ok s) :
    ∃ st, invalidateSession isProd store shop nowMs
        = Except.ok ⟨st, (store.filter (fun r => r.shop == s && r.isActive)).length⟩ ∧
      (∀ r ∈ st, (r.shop == s && r.isActive) = false) ∧
      invalidateSession isProd st shop nowMs2 = Except.ok ⟨st, 0⟩ ∧
      invalidateSessionReturn isProd store shop nowMs = Except.ok () := by
  have hnil : (deactivateShop store s nowMs).filter
      (fun r => r.shop == s && r.isActive) = [] := by
    rw [List.filter_eq_nil_iff]
    intro a ha
    simp [deactivateShop_not_active store s nowMs a ha]
  refine ⟨deactivateShop store s nowMs, ?_, ?_, ?_, ?_⟩
  · unfold invalidateSession
    rw [hs]
  · exact fun r hr => deactivateShop_not_active store s nowMs r hr
  · unfold invalidateSession
    rw [hs]
    dsimp only
    rw [hnil, deactivateShop_idempotent]
    rfl
  · unfold invalidateSessionReturn invalidateSession
    rw [hs]
    rfl

/-- Witness for the amended C8: one active row, then a second, zero-affected
    call. -/
theorem invalidate_deactivates_idempotent_witness :
    ∃ st, invalidateSession true [sampleRow] "test-shop" 7000
        = Except.ok ⟨st, ([sampleRow].filter
            (fun r => r.shop == "test-shop.myshopify.com" && r.isActive)).length⟩ ∧
      (∀ r ∈ st, (r.shop == "test-shop.myshopify.com" && r.isActive) = false) ∧
      invalidateSession true st "test-shop" 8000 = Except.ok ⟨st, 0⟩ ∧
      invalidateSessionReturn true [sampleRow] "test-shop" 7000 = Except.ok () :=
  invalidate_deactivates_idempotent true [sampleRow] "test-shop" 7000 8000
    "test-shop.myshopify.com" rfl

/-- The capture of `sanitizeShop`'s extraction regex: the maximal `[a-z0-9-]`
    prefix of the protocol-stripped, lowercased, trimmed input. -/
def capturedShopName (shop : String) : String :=
  String.mk ((stripProtocol (jsToLower (jsTrim shop))).data.takeWhile isShopNameChar)

/-- Lemma: `leadsWith` holds on any extension of the pattern itself. -/
theorem leadsWith_append (xs ys : List Char) : leadsWith xs (xs ++ ys) = true := by
  induction xs with
  | nil => rfl
  | cons c cs ih => simp [leadsWith, ih]

/-- A string obtained by appending `b` ends with `b`. -/
theorem jsEndsWith_append (a b : String) : jsEndsWith (a ++ b) b = true := by
  unfold jsEndsWith charsEndWith
  rw [String.data_append, List.reverse_append]
  exact leadsWith_append _ _

/-- In production, every successful `sanitizeShop` yields the captured name
    with the marketplace suffix appended. -/
theorem sanitizeShop_prod_shape (shop r : String)
    (h : sanitizeShop true shop = Except.ok r) :
    r = capturedShopName shop ++ ".myshopify.com" := by
  simp only [sanitizeShop] at h
  repeat' split at h
  all_goals simp_all [capturedShopName]

/-- C10: in production, every input accepted by `sanitizeShop` maps to
    `<name>.myshopify.com` where `<name>` is the leading `[a-z0-9-]` label of
    the lowercased, protocol-stripped input, so every shop derived from a
    token payload (and hence every token-exchange URL host) ends in
    `.myshopify.com`. -/
theorem sanitize_prod_myshopify :
    (∀ shop r, sanitizeShop true shop = Except.ok r →
        r = capturedShopName shop ++ ".myshopify.com" ∧
        jsEndsWith r ".myshopify.com" = true) ∧
    (∀ p shop, extractShopFromPayload true p = Except.ok shop →
        jsEndsWith shop ".myshopify.com" = true) := by
  constructor
  · intro shop r h
    have hs := sanitizeShop_prod_shape shop r h
    refine ⟨hs, ?_⟩
    rw [hs]
    exact jsEndsWith_append _ _
  · intro p shop h
    simp only [extractShopFromPayload] at h
    repeat' split at h
    all_goals first
      | (rw [sanitizeShop_prod_shape _ shop h]; exact jsEndsWith_append _ _)
      | simp_all

/-- Witness for C10: the arbitrary hostname `evil-shop.attacker.com` is
    normalized to `evil-shop.myshopify.com`. -/
theorem sanitize_prod_myshopify_witness :
    sanitizeShop true "evil-shop.attacker.com" = Except.ok "evil-shop.myshopify.com" ∧
    "evil-shop.myshopify.com"
      = capturedShopName "evil-shop.attacker.com" ++ ".myshopify.com" ∧
    jsEndsWith "evil-shop.myshopify.com" ".myshopify.com" = true :=
  ⟨rfl,
   (sanitize_prod_myshopify.1 "evil-shop.attacker.com" "evil-shop.myshopify.com" rfl).1,
   (sanitize_prod_myshopify.1 "evil-shop.attacker.com" "evil-shop.myshopify.com" rfl).2⟩
